import Mathlib

/-
  Verification of the fuzzer-session orchestrator
  (scripts/fuzzing/lib/fuzzer.py of the Fuchsia repository snapshot).

  The Python class `Fuzzer` is shallowly embedded below: its pure text
  scanning (regular expressions over log lines) becomes executable Lean
  functions on `List Char`, and its effectful methods become functions
  that thread explicit state and return explicit traces of the remote
  calls they would perform (dump-log fetches, artifact fetch requests,
  kill commands, launch commands).  External collaborators that are not
  part of the sources (Device, Host, Namespace) are modelled from the
  specification where their behaviour decides a claim; each such
  definition is marked `Modelled from the spec:` in its doc comment.
-/

namespace FuzzerPy

/-- One Fuchsia fuzz target, identified by package and executable name
(`Fuzzer._package` / `Fuzzer._executable` in fuzzer.py).  `__str__`
renders it as `package/executable`. -/
structure Target where
  package : String
  executable : String
deriving DecidableEq, Repr

/-- Embeds `Fuzzer.__str__`: the string `'{}/{}'.format(self.package,
self.executable)`. -/
def targetStr (t : Target) : String :=
  t.package ++ "/" ++ t.executable

/-- Python whitespace (the class matched by the regex `\s` and stripped by
`str.strip()`): space, tab, newline, carriage return, vertical tab and
form feed. -/
def isPySpace (c : Char) : Bool :=
  c = ' ' || c = '\t' || c = '\n' || c = '\r' || c = '\x0b' || c = '\x0c'

/-- Splits a character list into its longest prefix of decimal digits and
the remainder (the greedy `[0-9]+`/`[0-9]*` step of the regexes). -/
def digitsSpan : List Char → List Char × List Char
  | [] => ([], [])
  | c :: cs =>
    if c.isDigit then
      let p := digitsSpan cs
      (c :: p.1, p.2)
    else ([], c :: cs)

/-- Decimal value of a digit string, as computed by Python `int`. -/
def digitsToNat (ds : List Char) : Nat :=
  List.foldl (fun n c => 10 * n + (c.toNat - 48)) 0 ds

/-- Embeds the regex `^==([0-9]+)==` (`pid_pattern` in
`Fuzzer._symbolize_log_impl`): anchored at the start of the line, two
equals signs, at least one digit, two equals signs; the captured digits
are returned as a number. -/
def pidMatch : List Char → Option Nat
  | '=' :: '=' :: rest =>
    let p := digitsSpan rest
    match p.1, p.2 with
    | [], _ => none
    | ds, '=' :: '=' :: _ => some (digitsToNat ds)
    | _, _ => none
  | _ => none

/-- Embeds the regex `^MS: [0-9]*` (`mut_pattern` in
`Fuzzer._symbolize_log_impl`).  Because `[0-9]*` also matches the empty
string, the regex matches exactly the lines beginning with `MS: `. -/
def mutMatch : List Char → Bool
  | 'M' :: 'S' :: ':' :: ' ' :: _ => true
  | _ => false

/-- Drops `marker` from the front of a list, or fails if it is not a
prefix. -/
def dropLiteral : List Char → List Char → Option (List Char)
  | [], s => some s
  | _ :: _, [] => none
  | p :: ps, c :: cs => if p = c then dropLiteral ps cs else none

/-- Finds the leftmost occurrence of `marker` and returns the characters
following it (the scanning behaviour of `re.search` on a literal). -/
def searchLiteral (marker : List Char) : List Char → Option (List Char)
  | [] => dropLiteral marker []
  | c :: cs =>
    match dropLiteral marker (c :: cs) with
    | some rest => some rest
    | none => searchLiteral marker cs

/-- The literal part of `art_pattern` in `Fuzzer._symbolize_log_impl`:
the regex `Test unit written to (data/\S*)` can only match where this
literal occurs, since the capture group must start with `data/`. -/
def artMarker : List Char :=
  "Test unit written to data/".toList

/-- Embeds the regex `Test unit written to (data/\S*)` (`art_pattern`):
at the leftmost occurrence of the literal marker, the capture is `data/`
followed by the longest run of non-whitespace characters. -/
def artMatch (line : List Char) : Option (List Char) :=
  match searchLiteral artMarker line with
  | some rest => some ("data/".toList ++ rest.takeWhile (fun c => !isPySpace c))
  | none => none

/-- Embeds Python `str.strip()`: removes leading and trailing
whitespace. -/
def pyStrip (s : String) : String :=
  (((s.toList.dropWhile isPySpace).reverse.dropWhile isPySpace).reverse).asString

/-- Python truthiness of the `sym` variable in
`Fuzzer._symbolize_log_impl`: `not sym` is true when `sym` is `None` or
the empty string. -/
def pyFalsy : Option String → Bool
  | none => true
  | some s => s.isEmpty

/-- The external collaborators consulted while symbolizing: the device's
best-guess pid query (`Device.guess_pid`), the device log dump
(`Device.dump_log('--pid', str(pid))`) and the build environment's
symbolizer (`BuildEnv.symbolize`).  They are opaque inputs of the
embedding; theorems quantify over them. -/
structure Env where
  guessPid : Int
  dumpLog : Int → String
  symbolize : String → String

/-- The mutable state of the line loop in `Fuzzer._symbolize_log_impl`,
together with the trace of its effects: `outLines` records every chunk
written to `fd_out` in order, `echoed` every chunk echoed to the host,
and `dumpFetches` the pid argument of every `Device.dump_log` call. -/
structure SymState where
  pid : Int
  sym : Option String
  artifacts : List String
  lastKnownPid : Int
  outLines : List String
  echoed : List String
  dumpFetches : List Int
deriving DecidableEq, Repr

/-- Embeds one iteration of the `for line in iter(fd_in.readline, '')`
loop of `Fuzzer._symbolize_log_impl`:
pid marker updates `pid` and `_last_known_pid`; a mutation marker first
replaces a non-positive pid by the guessed pid, then, if `sym` is still
falsy, dumps and symbolizes the device log, writes it before the line
and remembers it; an artifact marker appends its capture; finally the
line itself is written (and echoed). -/
def symbolizeStep (env : Env) (echo : Bool) (st : SymState) (line : String) : SymState :=
  let pidm := pidMatch line.toList
  let mutm := mutMatch line.toList
  let artm := artMatch line.toList
  let st1 :=
    match pidm with
    | some p => { st with pid := (p : Int), lastKnownPid := (p : Int) }
    | none => st
  let st2 :=
    if mutm then
      let stp := if st1.pid ≤ 0 then { st1 with pid := env.guessPid } else st1
      if pyFalsy stp.sym then
        let raw := env.dumpLog stp.pid
        let s := env.symbolize raw
        { stp with
            sym := some s
            dumpFetches := stp.dumpFetches ++ [stp.pid]
            outLines := stp.outLines ++ [s]
            echoed := if echo then stp.echoed ++ [pyStrip s] else stp.echoed }
      else stp
    else st1
  let st3 :=
    match artm with
    | some a => { st2 with artifacts := st2.artifacts ++ [a.asString] }
    | none => st2
  { st3 with
      outLines := st3.outLines ++ [line]
      echoed := if echo then st3.echoed ++ [pyStrip line] else st3.echoed }

/-- Runs the line loop of `Fuzzer._symbolize_log_impl` over a whole
stream of input lines. -/
def symbolizeLines (env : Env) (echo : Bool) : SymState → List String → SymState
  | st, [] => st
  | st, line :: rest => symbolizeLines env echo (symbolizeStep env echo st line) rest

/-- The state at entry of `Fuzzer._symbolize_log_impl`: `pid = -1`,
`sym = None`, no artifacts; `lastKnownPid` is the value of the
`_last_known_pid` attribute at the time of the call. -/
def initSymState (lastKnownPid : Int) : SymState :=
  { pid := -1
    sym := none
    artifacts := []
    lastKnownPid := lastKnownPid
    outLines := []
    echoed := []
    dumpFetches := [] }

/-- The result of `Fuzzer._symbolize_log_impl`: the final loop state,
the argument lists of the `Namespace.fetch` calls issued after the loop
(one call with all recorded artifacts when the list is non-empty,
otherwise none), and the returned boolean `sym != None`. -/
structure SymRun where
  st : SymState
  nsFetchCalls : List (List String)
  found : Bool
deriving DecidableEq, Repr

/-- Embeds `Fuzzer._symbolize_log_impl` applied to a stream of lines. -/
def symbolizeLogImpl (env : Env) (echo : Bool) (lines : List String)
    (lastKnownPid : Int) : SymRun :=
  let st := symbolizeLines env echo (initSymState lastKnownPid) lines
  { st := st
    nsFetchCalls := if st.artifacts.isEmpty then [] else [st.artifacts]
    found := st.sym.isSome }

/-- Modelled from the spec: `ArtifactTransfer` / `Namespace.fetch`
("copies named files/globs between local and remote storage") copies
each remote path it is given, so the number of times a path is fetched
is the number of its occurrences across the fetch requests.  The
`Namespace` class itself is not part of the sources here. -/
def fetchCount (r : SymRun) (p : String) : Nat :=
  (r.nsFetchCalls.map (fun call => call.count p)).sum

/-- Modelled from the spec: `Device.v1_component_is_running` (the
`Device` class is not part of the sources here).  The spec's `RunState`
says "a liveness query result is cached until an explicit refresh is
requested".  `actual` is the true liveness of the component at query
time; the result is the answer and the updated cache. -/
def v1ComponentIsRunning (actual : Bool) (cache : Option Bool) (refresh : Bool) :
    Bool × Option Bool :=
  if refresh then (actual, some actual)
  else
    match cache with
    | some v => (v, some v)
    | none => (actual, some actual)

/-- Embeds `Fuzzer.is_running`: delegates to the device liveness query,
passing the `refresh` flag through (the source default is
`refresh=False`). -/
def is_running (actual : Bool) (cache : Option Bool) (refresh : Bool) :
    Bool × Option Bool :=
  v1ComponentIsRunning actual cache refresh

/-- Embeds `Fuzzer.require_stopped`: queries liveness with
`refresh=True` and raises a fatal error naming the target when the
fuzzer is running; returns the updated liveness cache otherwise. -/
def require_stopped (t : Target) (actual : Bool) (cache : Option Bool) :
    Except String (Option Bool) :=
  let q := is_running actual cache true
  if q.1 then Except.error (targetStr t ++ " is running and must be stopped first.")
  else Except.ok q.2

/-- The remote commands issued through `Device.ssh` that the claims talk
about: the kill-by-name command of `Fuzzer.stop` and the `run` command
composed by `Fuzzer._launch`. -/
inductive Event
  | kill (componentName : String)
  | launched (fuzzCmd : List String)
deriving DecidableEq, Repr

/-- Embeds `Fuzzer.stop`: queries `self.is_running()` — with the default
`refresh=False`, so a cached result is used when present — and issues
`killall <executable>.cmx` exactly when that query answers true.
Returns the issued events and the updated liveness cache. -/
def stop (t : Target) (actual : Bool) (cache : Option Bool) :
    List Event × Option Bool :=
  let q := is_running actual cache false
  if q.1 then ([Event.kill (t.executable ++ ".cmx")], q.2) else ([], q.2)

/-- Embeds the guard structure of `Fuzzer.start`: `require_stopped()` is
called before anything else; only on success is the composed `run`
command issued (the option/corpus composition itself, `fuzz_cmd`, is a
parameter here since no claim constrains its contents; the
launch-detection polling is modelled separately by
`launchBackground`). -/
def start (t : Target) (actual : Bool) (cache : Option Bool)
    (fuzzCmd : List String) : Except String (List Event × Option Bool) :=
  match require_stopped t actual cache with
  | Except.error e => Except.error e
  | Except.ok cache2 => Except.ok ([Event.launched fuzzCmd], cache2)

/-- The events in the success side of `start`. -/
def startEvents (r : Except String (List Event × Option Bool)) : List Event :=
  match r with
  | Except.error _ => []
  | Except.ok p => p.1

/-- The pid-directed symbol dump fetched after a failed reproduction
(`Fuzzer.repro`, after `proc.wait()` returned non-zero): the pid that
was passed to `Device.dump_log`, the symbolized text echoed to the
host, and whether the pid had to be guessed because no pid was ever
observed. -/
structure PostDump where
  pid : Int
  text : String
  guessed : Bool
deriving DecidableEq, Repr

/-- The outcome of a successful `Fuzzer.repro` call: the symbolization
of the process's stderr stream, and the unconditional post-wait symbol
dump when the process exited non-zero. -/
structure ReproResult where
  run : SymRun
  postDump : Option PostDump
deriving DecidableEq, Repr

/-- Embeds `Fuzzer.repro`: fail if no input units were provided; then
`require_stopped()` (forced liveness refresh); then launch in the
foreground — `_launch` resets `_last_known_pid` to 0 — and symbolize the
stderr stream; if `proc.wait()` returns 0, stop there; otherwise take
the last known pid (guessing one when none is positive), fetch a symbol
dump for it and echo it, with no condition on mutation markers. -/
def repro (t : Target) (actual : Bool) (cache : Option Bool) (env : Env)
    (inputs : List String) (stderrLines : List String) (waitCode : Int) :
    Except String ReproResult :=
  if inputs.isEmpty then Except.error "No units provided."
  else
    match require_stopped t actual cache with
    | Except.error e => Except.error e
    | Except.ok _ =>
      let run := symbolizeLogImpl env true stderrLines 0
      if waitCode = 0 then Except.ok { run := run, postDump := none }
      else
        let pid0 := run.st.lastKnownPid
        let pid := if pid0 ≤ 0 then env.guessPid else pid0
        let raw := env.dumpLog pid
        let s := env.symbolize raw
        Except.ok
          { run := run
            postDump := some { pid := pid, text := s, guessed := decide (pid0 ≤ 0) } }

/-- The class attribute `Fuzzer.LOG_PATTERN`: the glob used both for
launch detection and for monitoring; as the source comment notes, it
"only matches up to job 9, due to glob limitations". -/
def LOG_PATTERN : String := "fuzz-[0-9].log"

/-- A glob-pattern token: a literal character or a `[lo-hi]` character
class.  These are the only constructs appearing in `LOG_PATTERN`, the
one pattern the orchestrator globs with. -/
inductive GlobTok
  | lit (c : Char)
  | range (lo hi : Char)
deriving DecidableEq, Repr

/-- Tokenizes a glob pattern made of literals and `[lo-hi]` classes. -/
def parseGlob : List Char → List GlobTok
  | [] => []
  | '[' :: lo :: '-' :: hi :: ']' :: ps => GlobTok.range lo hi :: parseGlob ps
  | c :: ps => GlobTok.lit c :: parseGlob ps

/-- Matches a tokenized glob pattern against a name, with `fnmatch`
semantics for literals and character classes: each token consumes
exactly one character. -/
def tokMatch : List GlobTok → List Char → Bool
  | [], name => name.isEmpty
  | GlobTok.lit _ :: _, [] => false
  | GlobTok.lit p :: ps, c :: cs => p == c && tokMatch ps cs
  | GlobTok.range _ _ :: _, [] => false
  | GlobTok.range lo hi :: ps, c :: cs =>
      decide (lo ≤ c) && decide (c ≤ hi) && tokMatch ps cs

/-- Glob matching for patterns built from literals and classes. -/
def globMatch (pat name : List Char) : Bool :=
  tokMatch (parseGlob pat) name

/-- Whether a file name matches `Fuzzer.LOG_PATTERN`
(`fuzz-[0-9].log`). -/
def matchesLogPattern (name : String) : Bool :=
  globMatch LOG_PATTERN.toList name.toList

/-- Embeds `Namespace.ls` applied to the `LOG_PATTERN` glob (as in
`Fuzzer._launch` and `Fuzzer.monitor`): the remote files whose names
match the pattern. -/
def lsLogs (remoteFiles : List String) : List String :=
  remoteFiles.filter (fun f => matchesLogPattern f)

/-- The fixed sleep between launch-detection polls in `Fuzzer._launch`:
`self.host.sleep(0.5)`, i.e. 500 milliseconds. -/
def launchSleepMs : Nat := 500

/-- Embeds the polling loop of `Fuzzer._launch` (background mode):
`while proc.poll() == None and not self.ns.ls(logs)` — repeat while the
process has not exited and no matching log is listed, advancing one
poll tick per iteration (each tick separated by `launchSleepMs`).
Returns the tick at which the loop stopped, or `none` if the fuel ran
out first. -/
def launchWait (exited logsListed : Nat → Bool) : Nat → Nat → Option Nat
  | 0, _ => none
  | fuel + 1, tick =>
    if !exited tick && !logsListed tick then
      launchWait exited logsListed fuel (tick + 1)
    else some tick

/-- Embeds the background half of `Fuzzer._launch` after the process is
spawned: poll until exit or a matching remote log appears; afterwards,
if `ns.ls` still lists no matching log, fail with the
`failed to start` error naming the target; otherwise the launch
succeeds.  `remoteAt tick` is the remote data directory listing at each
poll tick. -/
def launchBackground (t : Target) (exited : Nat → Bool)
    (remoteAt : Nat → List String) (fuel : Nat) : Option (Except String Nat) :=
  match launchWait exited (fun tick => !(lsLogs (remoteAt tick)).isEmpty) fuel 0 with
  | none => none
  | some tick =>
    if (lsLogs (remoteAt tick)).isEmpty then
      some (Except.error (targetStr t ++ " failed to start."))
    else some (Except.ok tick)

/-- Insertion into a sorted list of strings (ordering of Python
`sorted`, lexicographic). -/
def insertSorted (s : String) : List String → List String
  | [] => [s]
  | x :: xs => if s < x then s :: x :: xs else x :: insertSorted s xs

/-- Insertion sort on strings. -/
def sortStrings : List String → List String
  | [] => []
  | x :: xs => insertSorted x (sortStrings xs)

/-- Modelled from the spec: `Host.glob` (the `Host` class is not part of
the sources here).  The spec's Monitor step symbolizes each retrieved
log at "its position in the retrieved, sorted set", so the local glob
returns the matching file names in sorted order. -/
def hostGlob (localFiles : List String) : List String :=
  sortStrings (localFiles.filter (fun f => matchesLogPattern f))

/-- The fixed sleep between liveness polls in `Fuzzer.monitor`:
`self.host.sleep(2)` seconds. -/
def monitorSleepSec : Nat := 2

/-- Embeds the polling loop of `Fuzzer.monitor`:
`while self.is_running(refresh=True)` — each iteration is a forced
liveness refresh, so the query answers the actual liveness `running
tick`; returns the tick at which the process was observed stopped, or
`none` if the fuel ran out first. -/
def monitorLoop (running : Nat → Bool) : Nat → Nat → Option Nat
  | 0, _ => none
  | fuel + 1, tick =>
    if running tick then monitorLoop running fuel (tick + 1) else some tick

/-- The per-log symbolization pass of `Fuzzer.monitor`: each retrieved
log is symbolized with the next job index, threading `_last_known_pid`
through the runs, and its local copy is removed afterwards. -/
def monitorJobs (env : Env) (contents : String → List String) :
    Int → Nat → List String → List (String × Nat × SymRun)
  | _, _, [] => []
  | lastPid, jobNum, log :: rest =>
    let run := symbolizeLogImpl env false (contents log) lastPid
    (log, jobNum, run) :: monitorJobs env contents run.st.lastKnownPid (jobNum + 1) rest

/-- The trace of one `Fuzzer.monitor` call: the number of forced
liveness polls, the remote files copied by `ns.fetch(output, logs)` and
removed by `ns.remove(logs)` (both use the `LOG_PATTERN` glob), the
symbolization jobs `(local log, job index, symbolization)` in order,
and the local copies removed after symbolizing. -/
structure MonitorResult where
  polls : Nat
  fetchedRemote : List String
  removedRemote : List String
  jobs : List (String × Nat × SymRun)
  removedLocal : List String
deriving Repr

/-- Embeds `Fuzzer.monitor`: poll liveness with forced refresh until the
process is observed stopped; fetch the remote logs matching
`LOG_PATTERN` into the output directory and remove the remote copies;
then glob the output directory for the same pattern and symbolize each
match with its position as job index, removing each local copy after
symbolizing.  `localFiles` are the files already in the output
directory before the fetch; `contents` gives the text lines of a local
log file. -/
def monitor (env : Env) (running : Nat → Bool) (remoteFiles localFiles : List String)
    (contents : String → List String) (lastKnownPid : Int) (fuel : Nat) :
    Option MonitorResult :=
  match monitorLoop running fuel 0 with
  | none => none
  | some tick =>
    let fetched := lsLogs remoteFiles
    let logs := hostGlob (localFiles ++ fetched)
    some
      { polls := tick + 1
        fetchedRemote := fetched
        removedRemote := fetched
        jobs := monitorJobs env contents lastKnownPid 0 logs
        removedLocal := logs }

/-- The `pkgctl pkg-status` command line composed in
`Fuzzer.is_resolved`. -/
def pkgStatusCmd (packageUrl : String) : List String :=
  ["pkgctl", "pkg-status", packageUrl]

/-- Embeds `subprocess.CalledProcessError(p.returncode, ' '.join(cmd),
output=out)` as raised by `Fuzzer.is_resolved`: the unexpected exit
code, the failing command line joined with spaces, and the captured
output. -/
structure CalledProcessError where
  returncode : Int
  cmd : String
  output : String
deriving DecidableEq, Repr

/-- Search step of the regex `Package on disk: yes \(path=(.*)\)` in
`Fuzzer.is_resolved`: given the text after the literal
`Package on disk: yes (path=` at a candidate position, the greedy
`(.*)\)` capture is everything up to the last `)` on that line, if
any. -/
def uptoLastParen (seg : List Char) : Option (List Char) :=
  match seg.reverse.dropWhile (fun c => c ≠ ')') with
  | [] => none
  | _ :: tailRev => some tailRev.reverse

/-- The literal prefix of the on-disk regex of `Fuzzer.is_resolved`. -/
def onDiskMarker : List Char :=
  "Package on disk: yes (path=".toList

/-- Embeds `re.search(r'Package on disk: yes \(path=(.*)\)', out)`:
scan left to right; at each occurrence of the literal marker try the
greedy capture up to the last `)` on the line; on failure resume
scanning further right. -/
def onDiskSearch : List Char → Option (List Char)
  | [] => none
  | c :: cs =>
    match dropLiteral onDiskMarker (c :: cs) with
    | some rest =>
      match uptoLastParen (rest.takeWhile (fun x => x ≠ '\n')) with
      | some cap => some cap
      | none => onDiskSearch cs
    | none => onDiskSearch cs

/-- Embeds the package-status branch of `Fuzzer.is_resolved` (the code
reached when the device is reachable, `_package_path` is unset and the
base `.cmx` is not on the device): run `pkgctl pkg-status`, raise
`CalledProcessError` for any exit code other than 0 or 2 — exit code 2
means "pkg in tuf repo but not on disk" and is not an error — then
return whether the output reports an on-disk path, recording it when it
does.  The result pair is the new `_package_path` and the returned
boolean. -/
def pkgStatusQuery (packageUrl : String) (returncode : Int) (out : String) :
    Except CalledProcessError (Option String × Bool) :=
  if returncode = 0 ∨ returncode = 2 then
    match onDiskSearch out.toList with
    | none => Except.ok (none, false)
    | some cap => Except.ok (some cap.asString, true)
  else
    Except.error
      { returncode := returncode
        cmd := String.intercalate " " (pkgStatusCmd packageUrl)
        output := out }

/-- Embeds `Fuzzer.is_resolved` in full: unreachable devices resolve to
false; a cached `_package_path` resolves to true; a base-package `.cmx`
on the device resolves to true; otherwise the `pkgctl pkg-status` query
decides. -/
def is_resolved (reachable : Bool) (packagePath : Option String)
    (baseCmxOnDevice : Bool) (baseAbspath : String) (packageUrl : String)
    (returncode : Int) (out : String) :
    Except CalledProcessError (Option String × Bool) :=
  if reachable = false then Except.ok (packagePath, false)
  else if packagePath.isSome then Except.ok (packagePath, true)
  else if baseCmxOnDevice then Except.ok (some baseAbspath, true)
  else pkgStatusQuery packageUrl returncode out

/-! Helper lemmas about the symbolization loop. -/

theorem symbolizeLines_append (env : Env) (echo : Bool) (st : SymState)
    (as bs : List String) :
    symbolizeLines env echo st (as ++ bs)
      = symbolizeLines env echo (symbolizeLines env echo st as) bs := by
  induction as generalizing st with
  | nil => rfl
  | cons a as ih => simpa [symbolizeLines] using ih (symbolizeStep env echo st a)

theorem symbolizeStep_artifacts (env : Env) (echo : Bool) (st : SymState)
    (l : String) :
    (symbolizeStep env echo st l).artifacts
      = st.artifacts ++ ((artMatch l.toList).map List.asString).toList := by
  unfold symbolizeStep
  cases hp : pidMatch l.toList <;> cases hm : mutMatch l.toList <;>
    cases ha : artMatch l.toList <;>
      simp [hp, hm, ha] <;> split <;> split <;> simp

theorem symbolizeLines_artifacts (env : Env) (echo : Bool) (st : SymState)
    (ls : List String) :
    (symbolizeLines env echo st ls).artifacts
      = st.artifacts ++ ls.filterMap (fun l => (artMatch l.toList).map List.asString) := by
  induction ls generalizing st with
  | nil => simp [symbolizeLines]
  | cons l ls ih =>
    simp only [symbolizeLines, ih, symbolizeStep_artifacts, List.filterMap_cons]
    cases artMatch l.toList <;> simp

theorem pyFalsy_false_isSome (o : Option String) (h : pyFalsy o = false) :
    o.isSome = true := by
  cases o <;> simp [pyFalsy] at h ⊢

theorem symbolizeStep_isSome (env : Env) (echo : Bool) (st : SymState)
    (l : String) :
    (symbolizeStep env echo st l).sym.isSome
      = (st.sym.isSome || mutMatch l.toList) := by
  unfold symbolizeStep
  cases hp : pidMatch l.toList <;> cases hm : mutMatch l.toList <;>
    cases ha : artMatch l.toList <;> simp [hp, hm, ha]
  all_goals
    split <;> split <;>
      first
        | (simp; done)
        | (rename_i h2; exact pyFalsy_false_isSome _ (by simpa using h2))

theorem symbolizeLines_isSome (env : Env) (echo : Bool) (st : SymState)
    (ls : List String) :
    (symbolizeLines env echo st ls).sym.isSome
      = (st.sym.isSome || ls.any (fun l => mutMatch l.toList)) := by
  induction ls generalizing st with
  | nil => simp [symbolizeLines]
  | cons l ls ih =>
    simp [symbolizeLines, ih, symbolizeStep_isSome, Bool.or_assoc]

theorem symbolizeStep_fetchInv (env : Env) (echo : Bool) (st : SymState)
    (l : String) (h : st.dumpFetches.isEmpty = st.sym.isNone) :
    (symbolizeStep env echo st l).dumpFetches.isEmpty
      = (symbolizeStep env echo st l).sym.isNone := by
  unfold symbolizeStep
  cases hp : pidMatch l.toList <;> cases hm : mutMatch l.toList <;>
    cases ha : artMatch l.toList <;> simp [hp, hm, ha, h] <;>
      split <;> split <;> simp_all

theorem symbolizeLines_fetchInv (env : Env) (echo : Bool) (st : SymState)
    (ls : List String) (h : st.dumpFetches.isEmpty = st.sym.isNone) :
    (symbolizeLines env echo st ls).dumpFetches.isEmpty
      = (symbolizeLines env echo st ls).sym.isNone := by
  induction ls generalizing st with
  | nil => simpa [symbolizeLines] using h
  | cons l ls ih =>
    exact ih (symbolizeStep env echo st l) (symbolizeStep_fetchInv env echo st l h)

theorem symbolizeStep_nomut (env : Env) (echo : Bool) (st : SymState)
    (l : String) (hm : mutMatch l.toList = false) :
    (symbolizeStep env echo st l).sym = st.sym
  ∧ (symbolizeStep env echo st l).dumpFetches = st.dumpFetches
  ∧ (symbolizeStep env echo st l).outLines = st.outLines ++ [l] := by
  have hm2 : mutMatch l.data = false := hm
  unfold symbolizeStep
  cases hp : pidMatch l.toList <;> cases ha : artMatch l.toList <;>
    simp [hp, hm, hm2, ha]

theorem symbolizeLines_nomut (env : Env) (echo : Bool) (st : SymState)
    (ls : List String) (hm : ∀ l ∈ ls, mutMatch l.toList = false) :
    (symbolizeLines env echo st ls).sym = st.sym
  ∧ (symbolizeLines env echo st ls).dumpFetches = st.dumpFetches
  ∧ (symbolizeLines env echo st ls).outLines = st.outLines ++ ls := by
  induction ls generalizing st with
  | nil => simp [symbolizeLines]
  | cons l ls ih =>
    have hstep := symbolizeStep_nomut env echo st l (hm l (by simp))
    have hrest := ih (symbolizeStep env echo st l) (fun x hx => hm x (by simp [hx]))
    refine ⟨?_, ?_, ?_⟩
    · rw [symbolizeLines, hrest.1, hstep.1]
    · rw [symbolizeLines, hrest.2.1, hstep.2.1]
    · rw [symbolizeLines, hrest.2.2, hstep.2.2]
      simp

theorem symbolizeStep_nonfalsy (env : Env) (echo : Bool) (st : SymState)
    (l : String) (hs : pyFalsy st.sym = false) :
    (symbolizeStep env echo st l).sym = st.sym
  ∧ (symbolizeStep env echo st l).dumpFetches = st.dumpFetches
  ∧ (symbolizeStep env echo st l).outLines = st.outLines ++ [l] := by
  unfold symbolizeStep
  cases hp : pidMatch l.toList <;> cases hm : mutMatch l.toList <;>
    cases ha : artMatch l.toList <;> simp [hp, hm, ha, hs] <;>
      split <;> simp_all

theorem symbolizeLines_nonfalsy (env : Env) (echo : Bool) (st : SymState)
    (ls : List String) (hs : pyFalsy st.sym = false) :
    (symbolizeLines env echo st ls).sym = st.sym
  ∧ (symbolizeLines env echo st ls).dumpFetches = st.dumpFetches
  ∧ (symbolizeLines env echo st ls).outLines = st.outLines ++ ls := by
  induction ls generalizing st with
  | nil => simp [symbolizeLines]
  | cons l ls ih =>
    have hstep := symbolizeStep_nonfalsy env echo st l hs
    have hrest := ih (symbolizeStep env echo st l) (by rw [hstep.1]; exact hs)
    refine ⟨?_, ?_, ?_⟩
    · rw [symbolizeLines, hrest.1, hstep.1]
    · rw [symbolizeLines, hrest.2.1, hstep.2.1]
    · rw [symbolizeLines, hrest.2.2, hstep.2.2]
      simp

theorem symbolizeStep_mut_falsy (env : Env) (echo : Bool) (st : SymState)
    (l : String) (hm : mutMatch l.toList = true) (hs : pyFalsy st.sym = true) :
    ∃ p, (symbolizeStep env echo st l).sym = some (env.symbolize (env.dumpLog p))
      ∧ (symbolizeStep env echo st l).dumpFetches = st.dumpFetches ++ [p]
      ∧ (symbolizeStep env echo st l).outLines
          = st.outLines ++ [env.symbolize (env.dumpLog p), l] := by
  have hm2 : mutMatch l.data = true := hm
  unfold symbolizeStep
  cases hp : pidMatch l.toList with
  | none =>
    cases ha : artMatch l.toList <;> simp [hp, hm, hm2, ha, hs] <;> split
    · exact ⟨env.guessPid, by simp, by simp, by simp⟩
    · exact ⟨st.pid, by simp, by simp, by simp⟩
    · exact ⟨env.guessPid, by simp, by simp, by simp⟩
    · exact ⟨st.pid, by simp, by simp, by simp⟩
  | some v =>
    cases ha : artMatch l.toList <;> simp [hp, hm, hm2, ha, hs] <;> split
    · exact ⟨env.guessPid, by simp, by simp, by simp⟩
    · exact ⟨(v : Int), by simp, by simp, by simp⟩
    · exact ⟨env.guessPid, by simp, by simp, by simp⟩
    · exact ⟨(v : Int), by simp, by simp, by simp⟩

/-! Helper lemmas about the polling loops, the monitor job pass, and the
log-name glob. -/

theorem launchWait_stops (exited lp : Nat → Bool) :
    ∀ fuel tick k, tick ≤ k → k - tick < fuel →
      (∀ j, tick ≤ j → j < k → exited j = false ∧ lp j = false) →
      (exited k || lp k) = true →
      launchWait exited lp fuel tick = some k := by
  intro fuel
  induction fuel with
  | zero =>
    intro tick k h1 h2 _ _
    omega
  | succ fuel ih =>
    intro tick k h1 h2 hmid hk
    by_cases htk : tick = k
    · subst htk
      unfold launchWait
      cases he : exited tick <;> cases hl : lp tick <;>
        simp [he, hl] <;> simp [he, hl] at hk
    · have hlt : tick < k := lt_of_le_of_ne h1 htk
      have hcur := hmid tick le_rfl hlt
      unfold launchWait
      simp only [hcur.1, hcur.2, Bool.not_false, Bool.and_self, if_true]
      exact ih (tick + 1) k hlt (by omega) (fun j hj1 hj2 => hmid j (by omega) hj2) hk

theorem monitorLoop_stops (running : Nat → Bool) :
    ∀ fuel tick k, tick ≤ k → k - tick < fuel →
      (∀ j, tick ≤ j → j < k → running j = true) → running k = false →
      monitorLoop running fuel tick = some k := by
  intro fuel
  induction fuel with
  | zero =>
    intro tick k h1 h2 _ _
    omega
  | succ fuel ih =>
    intro tick k h1 h2 hmid hk
    by_cases htk : tick = k
    · subst htk
      unfold monitorLoop
      simp [hk]
    · have hlt : tick < k := lt_of_le_of_ne h1 htk
      unfold monitorLoop
      simp only [hmid tick le_rfl hlt, if_true]
      exact ih (tick + 1) k hlt (by omega) (fun j hj1 hj2 => hmid j (by omega) hj2) hk

theorem monitorJobs_fst (env : Env) (contents : String → List String) :
    ∀ p n ls, (monitorJobs env contents p n ls).map Prod.fst = ls := by
  intro p n ls
  induction ls generalizing p n with
  | nil => rfl
  | cons l ls ih => simp [monitorJobs, ih]

theorem monitorJobs_idx (env : Env) (contents : String → List String) :
    ∀ p n ls, (monitorJobs env contents p n ls).map (fun j => j.2.1)
      = List.range' n ls.length := by
  intro p n ls
  induction ls generalizing p n with
  | nil => rfl
  | cons l ls ih => simp [monitorJobs, ih, List.range'_succ]

theorem monitorJobs_run (env : Env) (contents : String → List String) :
    ∀ p n ls j, j ∈ monitorJobs env contents p n ls →
      ∃ q, j.2.2 = symbolizeLogImpl env false (contents j.1) q := by
  intro p n ls
  induction ls generalizing p n with
  | nil => intro j hj; simp [monitorJobs] at hj
  | cons l ls ih =>
    intro j hj
    simp only [monitorJobs, List.mem_cons] at hj
    rcases hj with hj | hj
    · subst hj
      exact ⟨p, rfl⟩
    · exact ih _ _ j hj

theorem tokMatch_length :
    ∀ toks name, tokMatch toks name = true → name.length = toks.length := by
  intro toks
  induction toks with
  | nil =>
    intro name h
    cases name <;> simp_all [tokMatch]
  | cons t ts ih =>
    intro name h
    cases t <;> cases name <;> simp_all [tokMatch]

theorem toList_logName (s : String) :
    ("fuzz-" ++ s ++ ".log").toList
      = 'f' :: 'u' :: 'z' :: 'z' :: '-' :: (s.toList ++ ['.', 'l', 'o', 'g']) := by
  show ("fuzz-" ++ s ++ ".log").data = _
  rw [String.data_append, String.data_append]
  show ['f', 'u', 'z', 'z', '-'] ++ s.data ++ ['.', 'l', 'o', 'g'] = _
  simp [String.toList]

theorem logTokens_eq :
    parseGlob LOG_PATTERN.toList
      = [GlobTok.lit 'f', GlobTok.lit 'u', GlobTok.lit 'z', GlobTok.lit 'z',
         GlobTok.lit '-', GlobTok.range '0' '9', GlobTok.lit '.', GlobTok.lit 'l',
         GlobTok.lit 'o', GlobTok.lit 'g'] := by
  rfl

/-! Concrete fixtures used by the witness and counterexample theorems. -/

/-- A concrete target, with the names used throughout the repository's
test suite. -/
def exTarget : Target :=
  { package := "fake-package1", executable := "fake-target1" }

/-- A concrete environment whose symbolizer always returns non-empty
text. -/
def exEnv : Env :=
  { guessPid := 101
    dumpLog := fun _ => "raw device log"
    symbolize := fun _ => "SYMBOLIZED" }

/-- A concrete environment whose symbolizer returns the empty string
(an allowed output of the external symbolizer). -/
def exEnvEmptySym : Env :=
  { guessPid := 101
    dumpLog := fun _ => "raw device log"
    symbolize := fun _ => "" }

/-- A log line reporting a test unit written to `data/crash-X`. -/
def exArtLine : String := "Test unit written to data/crash-X"

/-! Claim theorems. -/

/-- C1, counterexample: the claim says artifact references are
deduplicated before fetching, so a path reported twice is fetched
exactly once.  On the code, a stream with the same
`Test unit written to data/crash-X` line twice produces a single
`ns.fetch` call whose argument list names `data/crash-X` twice: the
path is requested twice, not once — nothing deduplicates. -/
theorem claim_C1_counterexample :
    (symbolizeLogImpl exEnv false [exArtLine, exArtLine] 0).nsFetchCalls
        = [["data/crash-X", "data/crash-X"]]
  ∧ fetchCount (symbolizeLogImpl exEnv false [exArtLine, exArtLine] 0) "data/crash-X"
        = 2 := by
  exact ⟨rfl, rfl⟩

/-- C1, amended: artifact references are accumulated in stream order
with duplicates retained, and at end of stream they are passed to a
single `ns.fetch` call (issued only when at least one was recorded); a
path reported twice therefore appears twice in the fetch request. -/
theorem claim_C1_amended (env : Env) (echo : Bool) (lines : List String) (k : Int) :
    (symbolizeLogImpl env echo lines k).st.artifacts
        = lines.filterMap (fun l => (artMatch l.toList).map List.asString)
  ∧ (symbolizeLogImpl env echo lines k).nsFetchCalls
        = (if (symbolizeLogImpl env echo lines k).st.artifacts.isEmpty then []
           else [(symbolizeLogImpl env echo lines k).st.artifacts]) := by
  constructor
  · simpa [symbolizeLogImpl, initSymState] using
      symbolizeLines_artifacts env echo (initSymState k) lines
  · rfl

/-- C2, counterexample: the claim says `stop` performs a forced refresh
of the liveness state and kills exactly when the refreshed result says
the process is running.  On the code, `stop` calls `is_running()` with
the default `refresh=False`: with a stale cached `False` and the
process actually running, a forced refresh answers true, yet `stop`
issues no kill command and leaves the stale cache in place. -/
theorem claim_C2_counterexample :
    (stop exTarget true (some false)).1 = []
  ∧ (stop exTarget true (some false)).2 = some false
  ∧ (is_running true (some false) true).1 = true := by
  exact ⟨rfl, rfl, rfl⟩

/-- C2, amended: the reproduce-preflight (`require_stopped`, also used
by `start`) does force a refresh — it fails exactly when the actual
liveness is true, regardless of the cache — but `stop` consults the
cached result when one is present (the non-forced query) and issues
the kill-by-name command exactly when that possibly-stale result is
true. -/
theorem claim_C2_amended (t : Target) (actual : Bool) (cache : Option Bool) :
    ((require_stopped t actual cache
        = Except.error (targetStr t ++ " is running and must be stopped first."))
      ↔ actual = true)
  ∧ (stop t actual cache).1
      = (if cache.getD actual then [Event.kill (t.executable ++ ".cmx")] else []) := by
  constructor
  · cases actual <;> simp [require_stopped, is_running, v1ComponentIsRunning]
  · rcases cache with _ | v
    · cases actual <;> simp [stop, is_running, v1ComponentIsRunning]
    · cases v <;> cases actual <;> simp [stop, is_running, v1ComponentIsRunning]

/-- C3, counterexample: the claim says subsequent mutation-sequence
markers never cause a further dump fetch.  The code guards the fetch
with Python truthiness (`if not sym:`), so when the symbolizer returns
the empty string the guard stays falsy and a second `MS:` marker
fetches the device log dump again: two fetches for two markers. -/
theorem claim_C3_counterexample :
    (symbolizeLogImpl exEnvEmptySym false
        ["MS: 1 SomeMutation", "MS: 2 SomeMutation"] 0).st.dumpFetches.length = 2 := by
  rfl

/-- C3, amended: provided the symbolizer returns non-empty text, the
dump is fetched on the first mutation-sequence marker, its symbolized
text is written immediately before the triggering line, and no further
fetch or splice happens for the rest of the stream (with an
empty-string symbolizer result, later markers fetch again). -/
theorem claim_C3_amended (env : Env) (echo : Bool) (k : Int)
    (pre post : List String) (m : String)
    (hne : ∀ r, env.symbolize r ≠ "")
    (hpre : ∀ l ∈ pre, mutMatch l.toList = false)
    (hm : mutMatch m.toList = true) :
    ∃ p, (symbolizeLogImpl env echo (pre ++ m :: post) k).st.sym
            = some (env.symbolize (env.dumpLog p))
      ∧ (symbolizeLogImpl env echo (pre ++ m :: post) k).st.outLines
            = pre ++ env.symbolize (env.dumpLog p) :: m :: post
      ∧ (symbolizeLogImpl env echo (pre ++ m :: post) k).st.dumpFetches = [p] := by
  have hpre2 := symbolizeLines_nomut env echo (initSymState k) pre hpre
  obtain ⟨p, hsym, hfetch, hout⟩ :=
    symbolizeStep_mut_falsy env echo
      (symbolizeLines env echo (initSymState k) pre) m hm
      (by rw [hpre2.1]; rfl)
  have hnf : pyFalsy (symbolizeStep env echo
      (symbolizeLines env echo (initSymState k) pre) m).sym = false := by
    rw [hsym]
    have hx := hne (env.dumpLog p)
    simp only [pyFalsy, Bool.eq_false_iff, ne_eq, String.isEmpty_iff]
    exact hx
  have hpost := symbolizeLines_nonfalsy env echo
    (symbolizeStep env echo (symbolizeLines env echo (initSymState k) pre) m) post hnf
  have hsplit : symbolizeLines env echo (initSymState k) (pre ++ m :: post)
      = symbolizeLines env echo
          (symbolizeStep env echo (symbolizeLines env echo (initSymState k) pre) m)
          post := by
    rw [symbolizeLines_append]
    rfl
  refine ⟨p, ?_, ?_, ?_⟩
  · show (symbolizeLines env echo (initSymState k) (pre ++ m :: post)).sym = _
    rw [hsplit, hpost.1, hsym]
  · show (symbolizeLines env echo (initSymState k) (pre ++ m :: post)).outLines = _
    rw [hsplit, hpost.2.2, hout, hpre2.2.2]
    simp [initSymState]
  · show (symbolizeLines env echo (initSymState k) (pre ++ m :: post)).dumpFetches = _
    rw [hsplit, hpost.2.1, hfetch, hpre2.2.1]
    rfl

/-- C3, witness: the amended theorem applied to a concrete stream with
one leading plain line, one mutation marker and one trailing line,
under the concrete non-empty symbolizer. -/
theorem claim_C3_witness :
    ∃ p, (symbolizeLogImpl exEnv false
            (["A line"] ++ "MS: 1 SomeMutation" :: ["tail line"]) 0).st.sym
            = some (exEnv.symbolize (exEnv.dumpLog p))
      ∧ (symbolizeLogImpl exEnv false
            (["A line"] ++ "MS: 1 SomeMutation" :: ["tail line"]) 0).st.outLines
            = ["A line"] ++ exEnv.symbolize (exEnv.dumpLog p) :: "MS: 1 SomeMutation"
                :: ["tail line"]
      ∧ (symbolizeLogImpl exEnv false
            (["A line"] ++ "MS: 1 SomeMutation" :: ["tail line"]) 0).st.dumpFetches
            = [p] :=
  claim_C3_amended exEnv false 0 ["A line"] ["tail line"] "MS: 1 SomeMutation"
    (fun _ h => absurd (congrArg String.length (show ("SYMBOLIZED" : String) = "" from h))
      (by decide)) (by decide) (by decide)

/-- C7: `symbolize_log` returns true exactly when at least one
mutation-sequence marker occurred in the stream, equivalently exactly
when at least one symbol dump was fetched and spliced; the remote exit
code is not an input of the computation at all. -/
theorem claim_C7 (env : Env) (echo : Bool) (lines : List String) (k : Int) :
    (symbolizeLogImpl env echo lines k).found
        = lines.any (fun l => mutMatch l.toList)
  ∧ (symbolizeLogImpl env echo lines k).found
        = !(symbolizeLogImpl env echo lines k).st.dumpFetches.isEmpty := by
  constructor
  · simpa [symbolizeLogImpl, initSymState] using
      symbolizeLines_isSome env echo (initSymState k) lines
  · have h2 := symbolizeLines_fetchInv env echo (initSymState k) lines rfl
    simp only [symbolizeLogImpl]
    rw [h2]
    cases (symbolizeLines env echo (initSymState k) lines).sym <;> simp

/-- C4, counterexample: the claim says that when the process's wait
returns zero no symbol dump is fetched.  On the code, the stderr stream
is symbolized before the wait, and a mutation-sequence marker in it
triggers a dump fetch there: with `MS: 1 x` in the output and exit code
0, one dump fetch happens even though no post-wait dump is taken. -/
theorem claim_C4_counterexample :
    (repro exTarget false none exEnv ["crash-1"] ["MS: 1 x"] 0).map
        (fun r => (r.postDump, r.run.st.dumpFetches.length))
      = Except.ok (none, 1) := by
  rfl

/-- C4, amended: when wait returns zero no post-wait symbol dump is
fetched (a dump may still have been fetched while symbolizing the
output, if a mutation marker appeared); when wait returns non-zero, a
dump for the last-known pid — or for the guessed pid when no positive
pid was ever observed — is fetched, symbolized and displayed
unconditionally, with no condition on mutation markers. -/
theorem claim_C4_amended (t : Target) (env : Env) (cache : Option Bool)
    (inputs stderrLines : List String) (w : Int) (hin : inputs ≠ []) :
    (repro t false cache env inputs stderrLines w).map (fun r => r.postDump)
      = Except.ok
          (if w = 0 then none
           else
             some
               { pid := if (symbolizeLogImpl env true stderrLines 0).st.lastKnownPid ≤ 0
                        then env.guessPid
                        else (symbolizeLogImpl env true stderrLines 0).st.lastKnownPid
                 text := env.symbolize (env.dumpLog
                    (if (symbolizeLogImpl env true stderrLines 0).st.lastKnownPid ≤ 0
                     then env.guessPid
                     else (symbolizeLogImpl env true stderrLines 0).st.lastKnownPid))
                 guessed := decide
                    ((symbolizeLogImpl env true stderrLines 0).st.lastKnownPid ≤ 0) }) := by
  have hinb : inputs.isEmpty = false := by
    cases inputs
    · exact absurd rfl hin
    · rfl
  by_cases hw : w = 0 <;>
    simp [repro, hinb, require_stopped, is_running, v1ComponentIsRunning, hw] <;>
      rfl

/-- C4, witness: the amended theorem applied to a concrete reproduction
whose output contains a pid marker but no mutation marker and whose
process exits with code 77. -/
theorem claim_C4_witness :
    (repro exTarget false none exEnv ["crash-1"] ["==123== starting"] 77).map
        (fun r => r.postDump)
      = Except.ok
          (if (77 : Int) = 0 then none
           else
             some
               { pid := if (symbolizeLogImpl exEnv true ["==123== starting"] 0).st.lastKnownPid ≤ 0
                        then exEnv.guessPid
                        else (symbolizeLogImpl exEnv true ["==123== starting"] 0).st.lastKnownPid
                 text := exEnv.symbolize (exEnv.dumpLog
                    (if (symbolizeLogImpl exEnv true ["==123== starting"] 0).st.lastKnownPid ≤ 0
                     then exEnv.guessPid
                     else (symbolizeLogImpl exEnv true ["==123== starting"] 0).st.lastKnownPid))
                 guessed := decide
                    ((symbolizeLogImpl exEnv true ["==123== starting"] 0).st.lastKnownPid ≤ 0) }) :=
  claim_C4_amended exTarget exEnv none ["crash-1"] ["==123== starting"] 77 (by decide)

/-- C5: in a background launch, the launcher polls (at the fixed
`launchSleepMs` interval) for process exit or the appearance of a
remote log matching `LOG_PATTERN`; if the process exits at poll tick
`k` and no matching log has appeared through tick `k`, the launch
fails with the `failed to start` error naming the target. -/
theorem claim_C5 (t : Target) (exited : Nat → Bool) (remoteAt : Nat → List String)
    (k fuel : Nat) (hk : exited k = true) (hbefore : ∀ j, j < k → exited j = false)
    (hlogs : ∀ j, j ≤ k → lsLogs (remoteAt j) = []) (hfuel : k < fuel) :
    launchBackground t exited remoteAt fuel
      = some (Except.error (targetStr t ++ " failed to start.")) := by
  have hwait := launchWait_stops exited
      (fun tick => !(lsLogs (remoteAt tick)).isEmpty) fuel 0 k (Nat.zero_le k)
      (by omega)
      (fun j _ hj2 => ⟨hbefore j hj2, by simp [hlogs j (le_of_lt hj2)]⟩)
      (by simp [hk])
  unfold launchBackground
  rw [hwait]
  simp [hlogs k le_rfl]

/-- C5, witness: a process that has already exited at the first poll,
with a remote directory that only ever contains `fuzz-10.log` (which
the log pattern does not match). -/
theorem claim_C5_witness :
    launchBackground exTarget (fun _ => true) (fun _ => ["fuzz-10.log"]) 1
      = some (Except.error (targetStr exTarget ++ " failed to start.")) :=
  claim_C5 exTarget (fun _ => true) (fun _ => ["fuzz-10.log"]) 0 1 rfl
    (fun j hj => absurd hj (Nat.not_lt_zero j)) (fun _ _ => rfl) (by decide)

/-- C6: once the forced-refresh liveness poll observes the process
stopped, monitor fetches exactly the remote files matching the log
pattern, removes the same files remotely, symbolizes each local match
of the pattern with a job index equal to its position in the sorted
retrieved set (0, 1, ...), and removes each local copy after
symbolizing; every recorded job is the symbolization of that log's
contents. -/
theorem claim_C6 (env : Env) (running : Nat → Bool)
    (remoteFiles localFiles : List String) (contents : String → List String)
    (lastPid : Int) (k fuel : Nat) (hk : running k = false)
    (hbefore : ∀ j, j < k → running j = true) (hfuel : k < fuel) :
    (monitor env running remoteFiles localFiles contents lastPid fuel).map
        (fun r => (r.fetchedRemote, r.removedRemote, r.jobs.map Prod.fst,
                   r.jobs.map (fun j => j.2.1), r.removedLocal))
      = some (lsLogs remoteFiles, lsLogs remoteFiles,
              hostGlob (localFiles ++ lsLogs remoteFiles),
              List.range (hostGlob (localFiles ++ lsLogs remoteFiles)).length,
              hostGlob (localFiles ++ lsLogs remoteFiles))
  ∧ (∀ r, monitor env running remoteFiles localFiles contents lastPid fuel = some r →
      ∀ j ∈ r.jobs, ∃ q, j.2.2 = symbolizeLogImpl env false (contents j.1) q) := by
  have hloop := monitorLoop_stops running fuel 0 k (Nat.zero_le k) (by omega)
      (fun j _ hj2 => hbefore j hj2) hk
  constructor
  · unfold monitor
    rw [hloop]
    simp [monitorJobs_fst, monitorJobs_idx, List.range_eq_range']
  · intro r hr j hj
    unfold monitor at hr
    rw [hloop] at hr
    simp only [Option.some.injEq] at hr
    subst hr
    exact monitorJobs_run env contents lastPid 0 _ j hj

/-- C6, witness: the theorem applied to a process already stopped at
the first poll, two matching remote logs listed out of sorted order, a
non-matching remote file, and a non-matching pre-existing local
file. -/
theorem claim_C6_witness :
    (monitor exEnv (fun _ => false) ["fuzz-1.log", "fuzz-0.log", "summary.txt"]
        ["fuzz-1234-56-78-9012-0.log"] (fun _ => ["MS: 1 x"]) 0 1).map
        (fun r => (r.fetchedRemote, r.removedRemote, r.jobs.map Prod.fst,
                   r.jobs.map (fun j => j.2.1), r.removedLocal))
      = some (lsLogs ["fuzz-1.log", "fuzz-0.log", "summary.txt"],
              lsLogs ["fuzz-1.log", "fuzz-0.log", "summary.txt"],
              hostGlob (["fuzz-1234-56-78-9012-0.log"]
                ++ lsLogs ["fuzz-1.log", "fuzz-0.log", "summary.txt"]),
              List.range (hostGlob (["fuzz-1234-56-78-9012-0.log"]
                ++ lsLogs ["fuzz-1.log", "fuzz-0.log", "summary.txt"])).length,
              hostGlob (["fuzz-1234-56-78-9012-0.log"]
                ++ lsLogs ["fuzz-1.log", "fuzz-0.log", "summary.txt"])) :=
  (claim_C6 exEnv (fun _ => false) ["fuzz-1.log", "fuzz-0.log", "summary.txt"]
    ["fuzz-1234-56-78-9012-0.log"] (fun _ => ["MS: 1 x"]) 0 0 1 rfl
    (fun j hj => absurd hj (Nat.not_lt_zero j)) (by decide)).1

/-- C8: when the resolution path reaches the package-status query (the
device is reachable, no package path is cached and the base `.cmx` is
not on the device), exit code 2 — the "in the TUF repo but not on
disk" code — is reclassified as a plain "not found" answer: the query
returns false with no error (given that such an output does not report
an on-disk path); every other non-zero exit code raises a fatal
`CalledProcessError` carrying the space-joined failing command line
and the captured output. -/
theorem claim_C8 (b url out : String) (rc : Int)
    (hnm : onDiskSearch out.toList = none) (hrc0 : rc ≠ 0) (hrc2 : rc ≠ 2) :
    is_resolved true none false b url 2 out = Except.ok (none, false)
  ∧ is_resolved true none false b url rc out
      = Except.error
          { returncode := rc
            cmd := String.intercalate " " (pkgStatusCmd url)
            output := out } := by
  have hnm2 : onDiskSearch out.data = none := hnm
  constructor
  · simp [is_resolved, pkgStatusQuery, hnm, hnm2]
  · simp [is_resolved, pkgStatusQuery, hrc0, hrc2]

/-- C8, witness: the theorem applied to the exit codes 2 and 1 with
the textual status output that `pkgctl` prints for a package that is
known but not on disk. -/
theorem claim_C8_witness :
    is_resolved true none false "/pkgfs/packages/fake-package1/0"
        "fuchsia-pkg://fuchsia.com/fake-package1" 2 "Package on disk: no"
      = Except.ok (none, false)
  ∧ is_resolved true none false "/pkgfs/packages/fake-package1/0"
        "fuchsia-pkg://fuchsia.com/fake-package1" 1 "Package on disk: no"
      = Except.error
          { returncode := 1
            cmd := String.intercalate " "
              (pkgStatusCmd "fuchsia-pkg://fuchsia.com/fake-package1")
            output := "Package on disk: no" } :=
  claim_C8 "/pkgfs/packages/fake-package1/0" "fuchsia-pkg://fuchsia.com/fake-package1"
    "Package on disk: no" 1 (by decide) (by decide) (by decide)

/-- C9: for both `start` and `repro`, the `require_stopped` guard runs
before launching with a forced liveness refresh: whatever the cached
value says, if the process is actually running the operation fails
with the descriptive error naming the target, `start` issues no launch
command, and `repro` (given a non-empty unit list, which is checked
even earlier) likewise stops before launching. -/
theorem claim_C9 (t : Target) (cache : Option Bool) (fuzzCmd : List String)
    (env : Env) (inputs stderrLines : List String) (w : Int) (hin : inputs ≠ []) :
    start t true cache fuzzCmd
        = Except.error (targetStr t ++ " is running and must be stopped first.")
  ∧ startEvents (start t true cache fuzzCmd) = []
  ∧ repro t true cache env inputs stderrLines w
        = Except.error (targetStr t ++ " is running and must be stopped first.") := by
  have hinb : inputs.isEmpty = false := by
    cases inputs
    · exact absurd rfl hin
    · rfl
  refine ⟨?_, ?_, ?_⟩
  · simp [start, require_stopped, is_running, v1ComponentIsRunning]
  · simp [startEvents, start, require_stopped, is_running, v1ComponentIsRunning]
  · simp [repro, hinb, require_stopped, is_running, v1ComponentIsRunning]

/-- C9, witness: the theorem applied with a stale cached "not running"
value while the process actually runs — the forced refresh overrides
the cache and both operations fail fast. -/
theorem claim_C9_witness :
    start exTarget true (some false) ["run", "fuchsia-pkg://fake"]
        = Except.error (targetStr exTarget ++ " is running and must be stopped first.")
  ∧ startEvents (start exTarget true (some false) ["run", "fuchsia-pkg://fake"]) = []
  ∧ repro exTarget true (some false) exEnv ["crash-1"] [] 0
        = Except.error (targetStr exTarget ++ " is running and must be stopped first.") :=
  claim_C9 exTarget (some false) ["run", "fuchsia-pkg://fake"] exEnv ["crash-1"] [] 0
    (by decide)

/-- C10: the log glob `fuzz-[0-9].log` matches exactly the per-job logs
with a single-digit job index: every `fuzz-<d>.log` with a digit
character matches, while any name whose job-number part is two or more
characters (so every job number of 10 or more) does not; consequently a
remote directory holding only `fuzz-10.log` yields an empty `ns.ls`
listing, launch detection never sees it (the launch still fails with
`failed to start`), and monitor fetches, symbolizes and removes
nothing. -/
theorem claim_C10 (c : Char) (s : String) (hc0 : '0' ≤ c) (hc9 : c ≤ '9')
    (hs : 2 ≤ s.length) :
    matchesLogPattern ("fuzz-" ++ String.mk [c] ++ ".log") = true
  ∧ matchesLogPattern ("fuzz-" ++ s ++ ".log") = false
  ∧ lsLogs ["fuzz-10.log"] = []
  ∧ launchBackground exTarget (fun _ => false)
      (fun _ => ["fuzz-10.log"]) 1 = none
  ∧ launchBackground exTarget (fun tick => decide (1 ≤ tick))
      (fun _ => ["fuzz-10.log"]) 5
      = some (Except.error (targetStr exTarget ++ " failed to start."))
  ∧ (monitor exEnv (fun _ => false) ["fuzz-10.log"] [] (fun _ => []) 0 1).map
        (fun r => (r.fetchedRemote, r.removedRemote, r.jobs, r.removedLocal))
      = some ([], [], [], []) := by
  refine ⟨?_, ?_, rfl, rfl, rfl, rfl⟩
  · have hname : ("fuzz-" ++ String.mk [c] ++ ".log").toList
        = 'f' :: 'u' :: 'z' :: 'z' :: '-' :: c :: ['.', 'l', 'o', 'g'] := by
      rw [toList_logName]
      rfl
    rw [matchesLogPattern, globMatch, logTokens_eq, hname]
    simp [tokMatch, hc0, hc9]
  · cases hd : s.toList with
    | nil =>
      exfalso
      have hlen : 2 ≤ s.toList.length := hs
      rw [hd] at hlen
      simp at hlen
    | cons a rest =>
      have hrest : 1 ≤ rest.length := by
        have hlen : 2 ≤ s.toList.length := hs
        rw [hd] at hlen
        simpa using hlen
      have hname : ("fuzz-" ++ s ++ ".log").toList
          = 'f' :: 'u' :: 'z' :: 'z' :: '-' :: a :: (rest ++ ['.', 'l', 'o', 'g']) := by
        rw [toList_logName, hd]
        rfl
      rw [matchesLogPattern, globMatch, logTokens_eq, hname]
      have htail : tokMatch
          [GlobTok.lit '.', GlobTok.lit 'l', GlobTok.lit 'o', GlobTok.lit 'g']
          (rest ++ ['.', 'l', 'o', 'g']) = false := by
        cases hmt : tokMatch
            [GlobTok.lit '.', GlobTok.lit 'l', GlobTok.lit 'o', GlobTok.lit 'g']
            (rest ++ ['.', 'l', 'o', 'g']) with
        | false => rfl
        | true =>
          exfalso
          have hlen2 := tokMatch_length _ _ hmt
          simp only [List.length_append, List.length_cons, List.length_nil] at hlen2
          omega
      simp [tokMatch, htail]

/-- C10, witness: the theorem applied to the digit `3` and the
two-character job number `10`. -/
theorem claim_C10_witness :
    matchesLogPattern ("fuzz-" ++ String.mk ['3'] ++ ".log") = true
  ∧ matchesLogPattern ("fuzz-" ++ "10" ++ ".log") = false
  ∧ lsLogs ["fuzz-10.log"] = []
  ∧ launchBackground exTarget (fun _ => false)
      (fun _ => ["fuzz-10.log"]) 1 = none
  ∧ launchBackground exTarget (fun tick => decide (1 ≤ tick))
      (fun _ => ["fuzz-10.log"]) 5
      = some (Except.error (targetStr exTarget ++ " failed to start."))
  ∧ (monitor exEnv (fun _ => false) ["fuzz-10.log"] [] (fun _ => []) 0 1).map
        (fun r => (r.fetchedRemote, r.removedRemote, r.jobs, r.removedLocal))
      = some ([], [], [], []) :=
  claim_C10 '3' "10" (by decide) (by decide) (by decide)

end FuzzerPy
